import Mathlib

/-!
# Verification of the querylytics conversational orchestration engine

Shallow embedding of the agent framework under
`src/querylytics/shared/infrastructure/agent/` (`base.py`, `main_agent.py`,
`task.py`, `special/probing_agent.py`, `special/retrieval_agent.py`),
together with proofs of the behavioural properties stated about it.

External collaborators (the OpenAI language-model client, the vector store,
Slack/Mongo delivery) are modelled as abstract parameters: the embedding is
faithful to the repository's own control flow and data handling, while the
collaborator outputs range over all possible values.
-/

set_option autoImplicit false

namespace Querylytics

/-! ## Python value universe

Handler results and probing summaries are dynamically typed in the source
(`Any` / `Union[str, dict]`).  `PyValue` is the fragment of Python values the
agent code manipulates, together with Python truthiness (`bool(x)`). -/

inductive PyValue where
  | none : PyValue
  | str : String → PyValue
  | bool : Bool → PyValue
  | int : Int → PyValue
  | list : List PyValue → PyValue
  | dict : List (String × PyValue) → PyValue

/-- Python truthiness `bool(x)` on the embedded fragment. -/
def PyValue.truthy : PyValue → Bool
  | .none => false
  | .str s => !s.isEmpty
  | .bool b => b
  | .int n => n != 0
  | .list l => !l.isEmpty
  | .dict d => !d.isEmpty

/-- Is the value a Python `str`?  (`isinstance(x, str)`). -/
def PyValue.isStr : PyValue → Bool
  | .str _ => true
  | _ => false

/-- Is the value a Python `dict`?  (`isinstance(x, dict)`). -/
def PyValue.isDict : PyValue → Bool
  | .dict _ => true
  | _ => false

/-! ## Python string primitives

The source lowercases (`str.lower`), strips (`str.strip`), tests substring
membership (`needle in hay`) and splits (`str.split(sep)`).  We embed these
over `List Char`; `Char.toLower` agrees with Python `str.lower` on the ASCII
strings the agent code compares. -/

/-- Python `str.lower()` (ASCII range, which covers every vocabulary and
marker string used by the source). -/
def pyLower (s : String) : String :=
  String.mk (s.data.map Char.toLower)

/-- Characters removed by Python `str.strip()` (ASCII whitespace). -/
def pyWhitespace (c : Char) : Bool :=
  c = ' ' || c = '\t' || c = '\n' || c = '\r' || c = '\x0b' || c = '\x0c'

def dropLeadingWs : List Char → List Char
  | [] => []
  | c :: cs => if pyWhitespace c then dropLeadingWs cs else c :: cs

/-- Python `str.strip()` with no argument. -/
def pyStrip (s : String) : String :=
  String.mk ((dropLeadingWs (dropLeadingWs s.data.reverse).reverse))

/-- Does `needle` occur as a leading segment of `s`? -/
def leadsWith : List Char → List Char → Bool
  | [], _ => true
  | _ :: _, [] => false
  | n :: ns, c :: cs => n = c && leadsWith ns cs

/-- Does `needle` occur somewhere inside `s`? -/
def hasSub (needle : List Char) : List Char → Bool
  | [] => leadsWith needle []
  | c :: cs => leadsWith needle (c :: cs) || hasSub needle cs

/-- Python substring membership `needle in hay`. -/
def strContains (hay needle : String) : Bool :=
  hasSub needle.data hay.data

/-- First occurrence of `needle` in `s`: `some (before, after)` where
`before ++ needle ++ after = s` and `before` is shortest, else `none`.
This is the leftmost-match discipline of Python `str.split`. -/
def findSplit (needle : List Char) : List Char → Option (List Char × List Char)
  | [] => if leadsWith needle [] then some ([], []) else Option.none
  | c :: cs =>
    if leadsWith needle (c :: cs) then some ([], (c :: cs).drop needle.length)
    else
      match findSplit needle cs with
      | some (pre, post) => some (c :: pre, post)
      | Option.none => Option.none

/-- Python `m.split(sep)[1]` for a separator that occurs in `m`: the text
between the first and second occurrence of `sep`, or everything after the
first occurrence when it is the only one.  Returns `[]` when `sep` is absent
(the source only evaluates this under an occurrence guard). -/
def splitSecond (needle m : List Char) : List Char :=
  match findSplit needle m with
  | Option.none => []
  | some (_, post) =>
    match findSplit needle post with
    | Option.none => post
    | some (pre2, _) => pre2

/-- Everything after the first occurrence of `needle` in `m` (the empty list
when `needle` is absent). -/
def afterFirst (needle m : List Char) : List Char :=
  match findSplit needle m with
  | Option.none => []
  | some (_, post) => post

/-! ## `AgentState` and `transition_to` (`base.py` lines 19-103) -/

/-- The `AgentState` enum of `base.py`.  Note: it has no `NOTIFYING` member,
although `main_agent.py` line 87 refers to `AgentState.NOTIFYING`. -/
inductive AgentState where
  | idle
  | processing
  | tool_execution
  | error
  | done
  | retrieving
  | waiting_feedback
  | probing
  deriving DecidableEq, Repr

/-- Python attribute access `AgentState.<attr>` on the enum class: a member
name yields the member, anything else raises `AttributeError(attr)`. -/
def AgentState.lookup (attr : String) : Except String AgentState :=
  match attr with
  | "IDLE" => .ok .idle
  | "PROCESSING" => .ok .processing
  | "TOOL_EXECUTION" => .ok .tool_execution
  | "ERROR" => .ok .error
  | "DONE" => .ok .done
  | "RETRIEVING" => .ok .retrieving
  | "WAITING_FEEDBACK" => .ok .waiting_feedback
  | "PROBING" => .ok .probing
  | other => .error other

/-- Arguments that can be passed to `Agent.transition_to`: either an actual
`AgentState` member, or any other Python value, identified for the embedding
by the name of its type (which only feeds the error message). -/
inductive StateArg where
  | member (s : AgentState)
  | nonMember (tyName : String)

/-- Outcome of `Agent.transition_to`: the agent's `_state` field afterwards,
and the `ValueError` message when one was raised. -/
structure TransitionOutcome where
  state : AgentState
  raised : Option String
  deriving Repr

/-- `Agent.transition_to` (`base.py` lines 84-103): reject a value that is not
an `AgentState` member with a `ValueError` before touching `_state`; otherwise
assign `_state` and log (logging has no further effect). -/
def transition_to (cur : AgentState) (arg : StateArg) : TransitionOutcome :=
  match arg with
  | .nonMember ty =>
    { state := cur
      raised := some ("Invalid state type: " ++ ty ++ ". Must be AgentState enum.") }
  | .member s => { state := s, raised := Option.none }

/-- `Agent.add_capability` (`base.py` lines 251-255), acting on
`context.capabilities` (a Python list of strings). -/
def add_capability (caps : List String) (capability : String) : List String :=
  if capability ∈ caps then caps else caps ++ [capability]

/-! ## Tool dispatch (`base.py` lines 153-173 and 257-320)

A registered tool class is summarised by its request name (what
`get_request_type()` returns) and by the observable outcome of
`_try_tool`'s `try` block on a given message: parameter extraction, tool
construction, handler lookup by naming convention, and the handler call
itself.  The registry `self.tools` is a Python `dict`, iterated in
registration order, modelled as a list. -/

/-- What happens inside `_try_tool`'s `try` block for one tool on one
message. -/
inductive ToolOutcome where
  | missingHandler
  | raised (msg : String)
  | result (v : PyValue)

structure ToolClass where
  requestType : String
  invoke : String → ToolOutcome

/-- `Agent._is_valid_result` (`base.py` lines 305-320). -/
def is_valid_result (result : PyValue) : Bool :=
  match result with
  | .none => false
  | .str s =>
    let error_patterns := ["error", "not found", "no relevant", "couldn't find",
      "not configured"]
    !(error_patterns.any fun pattern => strContains (pyLower s) pattern)
  | v => v.truthy

/-- `Agent._try_tool` (`base.py` lines 267-303): run the tool, catch any
exception as `None`, return the result only when `_is_valid_result` accepts
it. -/
def try_tool (message : String) (tc : ToolClass) : Option PyValue :=
  match tc.invoke message with
  | .missingHandler => Option.none
  | .raised _ => Option.none
  | .result v => if is_valid_result v then some v else Option.none

/-- `Agent._get_specific_tool` (`base.py` lines 257-265): the first registered
tool whose request name occurs (lowercased) inside the lowercased message. -/
def get_specific_tool (tools : List ToolClass) (message : String) : Option ToolClass :=
  tools.find? fun tc => strContains (pyLower message) (pyLower tc.requestType)

/-- The `for tool_class in self.tools.values()` loop of `_execute_tools`
(`base.py` lines 163-167): the first tool whose `_try_tool` value is truthy
(`if result:`). -/
def scan_tools (tools : List ToolClass) (message : String) : Option PyValue :=
  tools.findSome? fun tc =>
    match try_tool message tc with
    | some r => if r.truthy then some r else Option.none
    | Option.none => Option.none

/-- `Agent._execute_tools` (`base.py` lines 153-173): prefer a specifically
named tool, fall back to scanning all registered tools, and return `None`
when nothing yields a truthy validated result. -/
def execute_tools (tools : List ToolClass) (llm_response : String) : Option PyValue :=
  match get_specific_tool tools llm_response with
  | some tc =>
    match try_tool llm_response tc with
    | some r => if r.truthy then some r else scan_tools tools llm_response
    | Option.none => scan_tools tools llm_response
  | Option.none => scan_tools tools llm_response

/-! ## Bounded task runner (`task.py`)

`Task.run` drives an arbitrary agent; the agent (and everything `step`
does to it, including sub-task recursion) is abstracted as a world of type
`σ` with an observable `AgentState` and a `step` operation returning the
optional response.  `step()` never lets an exception escape (`task.py`
lines 77-80 catch everything), so it is total here. -/

structure TaskSys (σ : Type) where
  agentState : σ → AgentState
  step : σ → Option String × σ

/-- `Task.is_done` (`task.py` lines 82-85). -/
def task_is_done (s : AgentState) : Bool :=
  s = AgentState.done || s = AgentState.error

/-- The `while` loop of `Task.run` (`task.py` lines 39-45):

    while not self.is_done() and self.step_count < self.max_steps:
        response = self.step()
        if response is None: break
        self.step_count += 1

The guard `step_count < max_steps` is carried as the fuel
`max_steps - step_count`, which strictly decreases with each increment of
`step_count`.  Returns the final `response`, the final world, and the number
of times `step()` was invoked. -/
def run_loop {σ : Type} (sys : TaskSys σ) :
    Nat → σ → Option String → Option String × σ × Nat
  | 0, s, response => (response, s, 0)
  | fuel + 1, s, response =>
    if task_is_done (sys.agentState s) then (response, s, 0)
    else
      match sys.step s with
      | (Option.none, s') => (Option.none, s', 1)
      | (some r, s') =>
        let (response', s'', n) := run_loop sys fuel s' (some r)
        (response', s'', n + 1)

/-- Number of `step()` invocations a call to `Task.run` performs, for a task
whose step counter holds `step_count` and whose ceiling is `max_steps`
(`task.py` lines 30-52; `run` does not reset `step_count`, so a fresh task
enters with `step_count = 0`). -/
def task_run_steps {σ : Type} (sys : TaskSys σ) (max_steps step_count : Nat)
    (s : σ) : Nat :=
  (run_loop sys (max_steps - step_count) s Option.none).2.2

/-- The string `Task.run` returns (`task.py` line 47):
`response if response else "Task completed without response"`. -/
def task_run_result {σ : Type} (sys : TaskSys σ) (max_steps step_count : Nat)
    (s : σ) : String :=
  match (run_loop sys (max_steps - step_count) s Option.none).1 with
  | some r => if r.isEmpty then "Task completed without response" else r
  | Option.none => "Task completed without response"

/-! ## Probing agent (`special/probing_agent.py`)

The language model appears in two places, abstracted as parameters:
`genQ` is `_generate_next_question` (an `llm.generate` call followed by
`response.get('message', default)`, always yielding a string), and
`findings` is the value of the `findings` variable computed inside
`_create_summary`'s `try` block (the parsed LLM summary, or the fixed
unparsable-response fallback dict), with `.error` covering the case where
that block raises and the `except` branch runs. -/

structure QAPair where
  question_id : String
  question : String
  answer_id : String
  answer : String

structure ProbingState where
  collected_responses : List QAPair
  question_counter : Nat
  current_question : Option String

/-- The state of a freshly constructed `ProbingAgent` (`__init__`,
lines 17-22). -/
def ProbingAgent.init : ProbingState :=
  { collected_responses := [], question_counter := 0, current_question := Option.none }

/-- `ProbingAgent._store_response` (lines 24-33): increment the counter, then
append the Q&A record labelled with the incremented counter. -/
def store_response (st : ProbingState) (question answer : String) : ProbingState :=
  let n := st.question_counter + 1
  { st with
    question_counter := n
    collected_responses := st.collected_responses ++
      [{ question_id := "question_" ++ toString n
         question := question
         answer_id := "answer_" ++ toString n
         answer := answer }] }

/-- The state after the opening lines of `ProbingAgent.handle_message`
(lines 39-40): record the incoming message as the answer to the outstanding
question, if any. -/
def probe_after_store (st : ProbingState) (message : String) : ProbingState :=
  match st.current_question with
  | some q => store_response st q message
  | Option.none => st

/-- The `collected_responses` list as the Python value embedded in the
summary dict. -/
def responsesToPy (l : List QAPair) : PyValue :=
  .list (l.map fun qa => .dict
    [("question_id", .str qa.question_id), ("question", .str qa.question),
     ("answer_id", .str qa.answer_id), ("answer", .str qa.answer)])

/-- `ProbingAgent._create_summary` (lines 69-126): always a dict — the
`try` path wraps the parsed findings with status `complete`, the `except`
path substitutes the fixed error payload.  Neither path touches
`question_counter`. -/
def create_summary (findings : Except String PyValue) (st : ProbingState) : PyValue :=
  match findings with
  | .ok f => .dict
      [("status", .str "complete"), ("findings", f),
       ("responses", responsesToPy st.collected_responses)]
  | .error _ => .dict
      [("status", .str "error"), ("findings", .str "Error generating summary"),
       ("responses", responsesToPy st.collected_responses)]

/-- The `Union[str, dict]` return type of `ProbingAgent.handle_message`. -/
inductive ProbeReply where
  | question (q : String)
  | summary (d : PyValue)

/-- `ProbingAgent.handle_message` (lines 35-48). -/
def ProbingAgent.handle_message (genQ : ProbingState → String)
    (findings : Except String PyValue) (max_questions : Nat)
    (st : ProbingState) (message : String) : ProbeReply × ProbingState :=
  let st1 := probe_after_store st message
  if max_questions ≤ st1.question_counter then
    (.summary (create_summary findings st1), st1)
  else
    let q := genQ st1
    (.question q, { st1 with current_question := some q })

/-! ## Retrieval coordinator answer extraction (`special/retrieval_agent.py`
lines 229-235) -/

/-- The extraction step at the end of `handle_message_parallel`: for the
reconciliation `message` produced by the model,

    if "ANSWER:" in message:
        answer = message.split("ANSWER:")[1].strip()
        return answer
    return message
-/
def extract_answer (message : String) : String :=
  if strContains message "ANSWER:" then
    pyStrip (String.mk (splitSecond "ANSWER:".data message.data))
  else message

/-! ## Main agent orchestrator
(`src/querylytics/shared/infrastructure/agent/main_agent.py`)

The sub-agents and the language model are abstracted as a `MainEnv`:
`newQuery` is the whole of `_handle_new_query` (query classification,
direct chat, retrieval — all LLM-driven), `probeReply` is what
`self.probing_agent.handle_message(message)` returns this turn, and
`probeFreshReply` is what the freshly constructed `ProbingAgent` returns
in `_handle_feedback`'s unsatisfied branch.  `notifyRaises` says whether
the `try` block of `_handle_notification` raises, and with what message. -/

structure MainContext where
  current_query : Option String
  current_answer : Option String
  probe_count : Nat
  feedback_type : Option String
  probe_results : Option PyValue

structure MainState where
  state : AgentState
  ctx : MainContext

/-- Result of one branch of `handle_message`'s `try` body: a returned Python
value, or an exception escaping to the `except` clause. -/
inductive HMOut where
  | ret (v : PyValue)
  | exc (e : String)

structure MainEnv where
  newQuery : MainState → String → HMOut × MainState
  probeReply : String → ProbeReply
  probeFreshReply : String → ProbeReply
  notifyRaises : Option String

/-- `MainAgent._reset` (lines 187-192): transition to IDLE and clear
`current_query`, `current_answer` and `probe_count`. -/
def main_reset (st : MainState) : MainState :=
  { state := AgentState.idle
    ctx := { st.ctx with
      current_query := Option.none
      current_answer := Option.none
      probe_count := 0 } }

/-- The two exact-match feedback vocabularies of `_handle_feedback`
(lines 165-166). -/
def FEEDBACK_SATISFIED : List String := ["yes", "good", "correct", "perfect", "thanks"]

def FEEDBACK_UNSATISFIED : List String := ["no", "wrong", "incorrect", "bad", "not helpful"]

/-- `MainAgent._handle_feedback` (lines 160-185): normalise with
`feedback.lower().strip()`, then exact-match against the two vocabularies;
anything else re-prompts without touching state or context. -/
def handle_feedback (env : MainEnv) (st : MainState) (feedback : String) :
    HMOut × MainState :=
  let fb := pyStrip (pyLower feedback)
  if fb ∈ FEEDBACK_SATISFIED then
    (.ret (.str "Great! Let me know if you have any other questions."),
      main_reset { st with state := AgentState.done })
  else if fb ∈ FEEDBACK_UNSATISFIED then
    let st1 : MainState :=
      { st with ctx := { st.ctx with feedback_type := some "unsatisfied" } }
    let st2 : MainState := { st1 with state := AgentState.probing }
    match env.probeFreshReply fb with
    | .question q => (.ret (.str q), st2)
    | .summary d => (.ret d, st2)
  else
    (.ret (.str ("Please indicate if you're satisfied with the answer. " ++
      "You can say things like 'yes', 'no', 'good', or 'not helpful'.")), st)

/-- `MainAgent._handle_notification` (lines 194-209): deliver the
notification, transition to DONE, `_reset`, and acknowledge; its own
`except` turns a failure into an ERROR transition and an error string. -/
def handle_notification (env : MainEnv) (st : MainState) : HMOut × MainState :=
  match env.notifyRaises with
  | some e =>
    (.ret (.str ("Error processing feedback: " ++ e)),
      { st with state := AgentState.error })
  | Option.none =>
    (.ret (.str "Thank you for your feedback. I'll use it to improve future responses."),
      main_reset { st with state := AgentState.done })

/-- The `try` body of `MainAgent.handle_message` (lines 72-103).  In the
PROBING branch, a dict reply stores the probe results and then evaluates
`AgentState.NOTIFYING` — an attribute lookup on the enum, which raises
`AttributeError("NOTIFYING")` because `base.py`'s enum has no such member;
the exception carries the mutated context out to the `except` clause. -/
def handle_message_body (env : MainEnv) (st : MainState) (message : String) :
    HMOut × MainState :=
  match st.state with
  | AgentState.idle => env.newQuery st message
  | AgentState.waiting_feedback => handle_feedback env st message
  | AgentState.probing =>
    match env.probeReply message with
    | .summary d =>
      let st1 : MainState :=
        { st with ctx := { st.ctx with probe_results := some d } }
      match AgentState.lookup "NOTIFYING" with
      | .ok ns => handle_notification env { st1 with state := ns }
      | .error e => (.exc e, st1)
    | .question q => (.ret (.str q), st)
  | AgentState.error =>
    (.ret (.str "Error occurred. Please try your question again."),
      { st with state := AgentState.idle })
  | _ =>
    (.ret (.str "System error. Please try again."),
      { st with state := AgentState.error })

/-- `MainAgent.handle_message` (lines 70-108): the `try` body above, with the
`except` clause transitioning to ERROR and returning `f"Error: {str(e)}"`. -/
def MainAgent.handle_message (env : MainEnv) (st : MainState) (message : String) :
    PyValue × MainState :=
  match handle_message_body env st message with
  | (.ret v, st') => (v, st')
  | (.exc e, st') => (.str ("Error: " ++ e), { st' with state := AgentState.error })

/-- Did `ProbingAgent.handle_message` return the summary dict (rather than a
question string)? -/
def ProbeReply.isSummary : ProbeReply → Bool
  | .summary _ => true
  | .question _ => false

/-! ## Claim-side comparison definitions

These follow the words of the specification claims (not the source), for the
refinement comparisons. -/

/-- Claim C6's wording of the invalid-result classification: absent (`None`),
a falsy non-string value, or a string whose lowercased form contains one of
the negative markers. -/
def claim_invalid_result (r : PyValue) : Bool :=
  match r with
  | .none => true
  | .str s =>
    ["error", "not found", "no relevant", "couldn't find", "not configured"].any
      fun pattern => strContains (pyLower s) pattern
  | v => !v.truthy

/-- Claim C7's wording of fallback dispatch: try every registered tool in
registration order and return the first handler result that passes
validation. -/
def claim_first_validated (tools : List ToolClass) (message : String) : Option PyValue :=
  tools.findSome? fun tc =>
    match tc.invoke message with
    | .result v => if is_valid_result v then some v else Option.none
    | _ => Option.none

/-- Claim C8's wording of the reconciliation extraction: with the marker
present, exactly the text after the first `ANSWER:` marker,
whitespace-stripped; with the marker absent, the message verbatim. -/
def claim_answer_extract (message : String) : String :=
  if strContains message "ANSWER:" then
    pyStrip (String.mk (afterFirst "ANSWER:".data message.data))
  else message

/-! ## Concrete instances used to exercise the dispatcher -/

/-- A registered tool whose handler returns the empty string (validated by
`_is_valid_result`, yet falsy). -/
def emptyStringTool : ToolClass :=
  { requestType := "vector_search", invoke := fun _ => .result (.str "") }

/-- A registered tool whose handler returns a plain successful answer. -/
def okTool : ToolClass :=
  { requestType := "api_search", invoke := fun _ => .result (.str "ok") }

/-- A registered tool whose handler raises. -/
def raisingTool : ToolClass :=
  { requestType := "api_search", invoke := fun _ => .raised "boom" }

/-- A registered tool whose handler answers `"Error: not configured"`. -/
def notConfiguredTool : ToolClass :=
  { requestType := "api_search", invoke := fun _ => .result (.str "Error: not configured") }

/-! ## Theorems -/

/-- C3: `transition_to` rejects any value outside the `AgentState`
enumeration with an error, leaving the current state unchanged; on a member
of the enumeration it sets the state to that member and raises nothing. -/
theorem C3_transition_to_total_spec (cur s : AgentState) (tyName : String) :
    transition_to cur (.member s) = { state := s, raised := Option.none } ∧
    (transition_to cur (.nonMember tyName)).raised.isSome = true ∧
    (transition_to cur (.nonMember tyName)).state = cur := by
  refine ⟨rfl, rfl, rfl⟩

/-- C10: `add_capability` is idempotent, never introduces a duplicate into a
duplicate-free capability list, and does put the capability in. -/
theorem C10_add_capability_idempotent (caps : List String) (c : String) :
    add_capability (add_capability caps c) c = add_capability caps c ∧
    (caps.Nodup → (add_capability caps c).Nodup) ∧
    c ∈ add_capability caps c := by
  unfold add_capability
  by_cases h : c ∈ caps
  · simp [h]
  · simp [h]
    intro hn
    exact hn.append (List.nodup_singleton c)
      (by simpa [List.disjoint_singleton] using h)

/-- Witness for C10 at a concrete input. -/
theorem C10_add_capability_idempotent_witness :
    (["search"] : List String).Nodup ∧ (add_capability ["search"] "chat").Nodup :=
  ⟨by decide, (C10_add_capability_idempotent ["search"] "chat").2.1 (by decide)⟩

/-- C6: `_is_valid_result` rejects exactly the results the claim describes —
`None`, falsy non-strings, and strings whose lowercased form contains one of
the five negative markers — and a handler result `"Error: not configured"`
is rejected by `_try_tool`, so the registration-order scan of dispatch moves
on to the next candidate tool. -/
theorem C6_validation_spec :
    (∀ r : PyValue, is_valid_result r = !claim_invalid_result r) ∧
    ∀ (message : String) (tc : ToolClass) (rest : List ToolClass),
      tc.invoke message = .result (.str "Error: not configured") →
      try_tool message tc = Option.none ∧
      scan_tools (tc :: rest) message = scan_tools rest message := by
  constructor
  · intro r
    cases r <;> simp [is_valid_result, claim_invalid_result, PyValue.truthy]
  · intro message tc rest h
    have hrej : try_tool message tc = Option.none := by
      simp [try_tool, h]
      decide
    refine ⟨hrej, ?_⟩
    simp [scan_tools, List.findSome?, hrej]

/-- Witness for C6 at a concrete input: a tool whose handler answers
`"Error: not configured"` is skipped and dispatch scans the rest. -/
theorem C6_validation_spec_witness :
    try_tool "find the doc" notConfiguredTool = Option.none ∧
    scan_tools [notConfiguredTool] "find the doc" = scan_tools [] "find the doc" :=
  C6_validation_spec.2 "find the doc" notConfiguredTool [] rfl

/-- C7 as stated is false: a handler result can pass validation and still not
be returned.  With a single registered tool (not named in the text) whose
handler returns the empty string — which `_is_valid_result` accepts —
dispatch returns `None`, not that first validated result, because
`_execute_tools` additionally requires truthiness (`if result:`). -/
theorem C7_counterexample :
    is_valid_result (.str "") = true ∧
    get_specific_tool [emptyStringTool] "find the report" = Option.none ∧
    claim_first_validated [emptyStringTool] "find the report" = some (.str "") ∧
    execute_tools [emptyStringTool] "find the report" = Option.none := by
  refine ⟨by decide, rfl, rfl, rfl⟩

/-- C7 amended: dispatch prefers a specifically named tool when its validated
result is truthy; otherwise it scans all registered tools in registration
order and returns the first validated *truthy* result (a validated empty
string is skipped like a failure); a raising handler is that tool's failure
and is not propagated; and when no tool's result survives `_try_tool`,
dispatch returns `None`. -/
theorem C7_dispatch_spec (tools : List ToolClass) (message : String) :
    (∀ (tc : ToolClass) (r : PyValue),
      get_specific_tool tools message = some tc →
      try_tool message tc = some r → r.truthy = true →
      execute_tools tools message = some r) ∧
    (get_specific_tool tools message = Option.none →
      execute_tools tools message = scan_tools tools message) ∧
    (∀ (tc : ToolClass) (e : String),
      tc.invoke message = .raised e → try_tool message tc = Option.none) ∧
    ((∀ tc ∈ tools, try_tool message tc = Option.none) →
      execute_tools tools message = Option.none) := by
  have hscan : (∀ tc ∈ tools, try_tool message tc = Option.none) →
      scan_tools tools message = Option.none := by
    intro hall
    unfold scan_tools
    rw [List.findSome?_eq_none_iff]
    intro tc htc
    simp [hall tc htc]
  refine ⟨?_, ?_, ?_, ?_⟩
  · intro tc r hspec htry htruthy
    simp [execute_tools, hspec, htry, htruthy]
  · intro hspec
    simp [execute_tools, hspec]
  · intro tc e hraise
    simp [try_tool, hraise]
  · intro hall
    have hs := hscan hall
    unfold execute_tools
    cases hfind : get_specific_tool tools message with
    | none => simpa [hfind] using hs
    | some tc =>
      have htc : tc ∈ tools := List.mem_of_find?_eq_some hfind
      have := hall tc htc
      simp [hfind, this, hs]

/-- Witness for C7 at concrete inputs: a specifically named tool's truthy
result is preferred; a raising handler yields that tool's failure; a registry
whose only handler raises makes dispatch return `None`. -/
theorem C7_dispatch_spec_witness :
    execute_tools [okTool] "use api_search" = some (.str "ok") ∧
    try_tool "hello" raisingTool = Option.none ∧
    execute_tools [raisingTool] "hello" = Option.none := by
  refine ⟨?_, ?_, ?_⟩
  · exact (C7_dispatch_spec [okTool] "use api_search").1 okTool (.str "ok")
      rfl rfl rfl
  · exact (C7_dispatch_spec [raisingTool] "hello").2.2.1 raisingTool "boom" rfl
  · exact (C7_dispatch_spec [raisingTool] "hello").2.2.2
      (by intro tc htc; simp at htc; subst htc; rfl)

/-- If `needle` does not occur in `s`, `findSplit` finds nothing. -/
theorem findSplit_eq_none_of_hasSub_false (needle : List Char) :
    ∀ s : List Char, hasSub needle s = false → findSplit needle s = Option.none := by
  intro s
  induction s with
  | nil =>
    intro h
    simp [hasSub] at h
    simp [findSplit, h]
  | cons c cs ih =>
    intro h
    simp [hasSub] at h
    obtain ⟨h1, h2⟩ := h
    simp [findSplit, h1, ih h2]

/-- C8 as stated is false when the reconciliation message contains the
`ANSWER:` marker twice: Python's `split("ANSWER:")[1]` stops at the second
marker, so the code returns only the segment between the two markers instead
of all the text after the first one. -/
theorem C8_counterexample :
    extract_answer "ANSWER: a ANSWER: b" = "a" ∧
    claim_answer_extract "ANSWER: a ANSWER: b" = "a ANSWER: b" ∧
    extract_answer "ANSWER: a ANSWER: b" ≠
      claim_answer_extract "ANSWER: a ANSWER: b" := by
  refine ⟨by decide, by decide, by decide⟩

/-- C8 amended: with the marker absent the full reconciliation message is
returned verbatim; with the marker present the code returns, stripped, the
segment of text between the first `ANSWER:` marker and the next occurrence
(everything after the first marker when it occurs only once — in particular
whenever the tail after the first marker contains no further marker, the
code agrees with the claim's "text after the first marker"). -/
theorem C8_extract_spec (message : String) :
    (strContains message "ANSWER:" = false → extract_answer message = message) ∧
    (strContains message "ANSWER:" = true →
      extract_answer message =
        pyStrip (String.mk (splitSecond "ANSWER:".data message.data))) ∧
    (strContains (String.mk (afterFirst "ANSWER:".data message.data)) "ANSWER:" = false →
      extract_answer message = claim_answer_extract message) := by
  refine ⟨fun h => by simp [extract_answer, h], fun h => by simp [extract_answer, h], ?_⟩
  intro htail
  by_cases h : strContains message "ANSWER:"
  · simp [extract_answer, claim_answer_extract, h]
    have : splitSecond "ANSWER:".data message.data =
        afterFirst "ANSWER:".data message.data := by
      unfold splitSecond afterFirst
      cases hfind : findSplit "ANSWER:".data message.data with
      | none => rfl
      | some pp =>
        obtain ⟨pre, post⟩ := pp
        have hpost : hasSub "ANSWER:".data post = false := by
          simpa [strContains, afterFirst, hfind] using htail
        simp [findSplit_eq_none_of_hasSub_false "ANSWER:".data post hpost]
    rw [this]
  · simp [extract_answer, claim_answer_extract, h]

/-- Witness for C8 at concrete inputs: a marker-free message is returned
verbatim, and a single-marker message yields the stripped text after the
marker. -/
theorem C8_extract_spec_witness :
    extract_answer "no marker here" = "no marker here" ∧
    extract_answer "EVALUATION: e\nANSWER: the answer " =
      pyStrip (String.mk
        (splitSecond "ANSWER:".data "EVALUATION: e\nANSWER: the answer ".data)) ∧
    extract_answer "EVALUATION: e\nANSWER: the answer " =
      claim_answer_extract "EVALUATION: e\nANSWER: the answer " :=
  ⟨(C8_extract_spec "no marker here").1 (by decide),
   (C8_extract_spec "EVALUATION: e\nANSWER: the answer ").2.1 (by decide),
   (C8_extract_spec "EVALUATION: e\nANSWER: the answer ").2.2 (by decide)⟩

/-- The `run` loop never performs more `step()` invocations than it has
fuel (`max_steps - step_count`). -/
theorem run_loop_steps_le {σ : Type} (sys : TaskSys σ) :
    ∀ (fuel : Nat) (s : σ) (response : Option String),
      (run_loop sys fuel s response).2.2 ≤ fuel := by
  intro fuel
  induction fuel with
  | zero => intro s response; simp [run_loop]
  | succ n ih =>
    intro s response
    unfold run_loop
    by_cases h : task_is_done (sys.agentState s)
    · simp [h]
    · simp only [h, Bool.false_eq_true, if_false]
      cases hstep : sys.step s with
      | mk r s' =>
        cases r with
        | none => simp
        | some t => simpa using Nat.succ_le_succ (ih s' (some t))

/-- C4: for a task with ceiling `max_steps`, one call to `run` invokes
`step()` at most `max_steps` times; no `step()` happens once the owning
agent's state is DONE or ERROR (the loop guard `is_done`), nor once the step
counter has reached the ceiling. -/
theorem C4_step_ceiling {σ : Type} (sys : TaskSys σ) (max_steps step_count : Nat)
    (s : σ) :
    task_run_steps sys max_steps step_count s ≤ max_steps ∧
    (task_is_done (sys.agentState s) = true →
      ∀ (fuel : Nat) (response : Option String),
        (run_loop sys fuel s response).2.2 = 0) ∧
    (max_steps ≤ step_count → task_run_steps sys max_steps step_count s = 0) := by
  refine ⟨?_, ?_, ?_⟩
  · exact Nat.le_trans (run_loop_steps_le sys (max_steps - step_count) s Option.none)
      (Nat.sub_le max_steps step_count)
  · intro hdone fuel response
    cases fuel with
    | zero => simp [run_loop]
    | succ n => simp [run_loop, hdone]
  · intro hle
    have : max_steps - step_count = 0 := Nat.sub_eq_zero_of_le hle
    simp [task_run_steps, this, run_loop]

/-- Witness for C4 at a concrete input: an agent that never terminates on its
own and always answers is stepped exactly up to the ceiling, and a task whose
counter already reached the ceiling performs no step at all. -/
theorem C4_step_ceiling_witness :
    task_run_steps
      { agentState := fun _ => AgentState.processing,
        step := fun n => (some "r", n + 1) } 3 0 0 ≤ 3 ∧
    (∀ (fuel : Nat) (response : Option String),
      (run_loop
        { agentState := fun _ => AgentState.done,
          step := fun (n : Nat) => (some "r", n + 1) } fuel 0 response).2.2 = 0) ∧
    task_run_steps
      { agentState := fun _ => AgentState.processing,
        step := fun n => (some "r", n + 1) } 3 5 0 = 0 :=
  ⟨(C4_step_ceiling
      { agentState := fun _ => AgentState.processing,
        step := fun n => (some "r", n + 1) } 3 0 0).1,
   (C4_step_ceiling
      { agentState := fun _ => AgentState.done,
        step := fun (n : Nat) => (some "r", n + 1) } 3 0 0).2.1 rfl,
   (C4_step_ceiling
      { agentState := fun _ => AgentState.processing,
        step := fun n => (some "r", n + 1) } 3 5 0).2.2 (by decide)⟩

/-- C2's reset clause is false on the code: starting a one-question session
from a freshly constructed agent state that has asked its question, the
answering call returns the summary dict, but `question_counter` is left at 1,
not reset to zero — `_create_summary` never touches the counter. -/
theorem C2_counterexample :
    ((ProbingAgent.handle_message (fun _ => "Q?") (.ok (.dict [])) 1
        { collected_responses := [], question_counter := 0,
          current_question := some "Q?" } "because").1).isSummary = true ∧
    (ProbingAgent.handle_message (fun _ => "Q?") (.ok (.dict [])) 1
        { collected_responses := [], question_counter := 0,
          current_question := some "Q?" } "because").2.question_counter = 1 ∧
    ¬ (ProbingAgent.handle_message (fun _ => "Q?") (.ok (.dict [])) 1
        { collected_responses := [], question_counter := 0,
          current_question := some "Q?" } "because").2.question_counter = 0 := by
  refine ⟨rfl, rfl, by decide⟩

/-- C2 amended: once the counter of completed question/answer exchanges has
reached `max_questions` (after recording the incoming answer), the call
returns the summary dict and never another question; the internal state is
left exactly as after recording the answer — in particular the question
counter keeps its value and is not reset to zero (the orchestrator starts
each probing session with a freshly constructed agent instead). -/
theorem C2_summary_at_max (genQ : ProbingState → String)
    (findings : Except String PyValue) (max_questions : Nat)
    (st : ProbingState) (message : String)
    (h : max_questions ≤ (probe_after_store st message).question_counter) :
    ((ProbingAgent.handle_message genQ findings max_questions st message).1).isSummary
        = true ∧
    (ProbingAgent.handle_message genQ findings max_questions st message).1 =
      .summary (create_summary findings (probe_after_store st message)) ∧
    (ProbingAgent.handle_message genQ findings max_questions st message).2 =
      probe_after_store st message := by
  unfold ProbingAgent.handle_message
  simp [h, ProbeReply.isSummary]

/-- Witness for C2 at a concrete input: with the default ceiling of five
questions and a fifth answer coming in, the reply is the summary and the
state is exactly the post-store state (counter 5). -/
theorem C2_summary_at_max_witness :
    ((ProbingAgent.handle_message (fun _ => "Q?") (.ok (.dict [])) 5
        { collected_responses := [], question_counter := 4,
          current_question := some "Q5" } "ans").1).isSummary = true ∧
    (ProbingAgent.handle_message (fun _ => "Q?") (.ok (.dict [])) 5
        { collected_responses := [], question_counter := 4,
          current_question := some "Q5" } "ans").2 =
      probe_after_store
        { collected_responses := [], question_counter := 4,
          current_question := some "Q5" } "ans" :=
  ⟨(C2_summary_at_max (fun _ => "Q?") (.ok (.dict [])) 5
      { collected_responses := [], question_counter := 4,
        current_question := some "Q5" } "ans" (by decide)).1,
   (C2_summary_at_max (fun _ => "Q?") (.ok (.dict [])) 5
      { collected_responses := [], question_counter := 4,
        current_question := some "Q5" } "ans" (by decide)).2.2⟩

/-- C1 is right about the intent but the code crashes instead: in state
PROBING, when the probing agent's reply is a summary dict, the handler stores
it and then evaluates `AgentState.NOTIFYING` — a member `base.py`'s enum does
not define — so an `AttributeError("NOTIFYING")` is raised before any
notification is dispatched; the outer handler transitions to ERROR (not
NOTIFYING → DONE → IDLE), the context is not cleared, and the caller receives
`"Error: NOTIFYING"` instead of the thank-you acknowledgement. -/
theorem C1_probing_summary_crashes (env : MainEnv) (st : MainState)
    (message : String) (d : PyValue) (hstate : st.state = AgentState.probing)
    (hreply : env.probeReply message = .summary d) :
    MainAgent.handle_message env st message =
      (.str "Error: NOTIFYING",
        { state := AgentState.error,
          ctx := { st.ctx with probe_results := some d } }) ∧
    AgentState.lookup "NOTIFYING" = .error "NOTIFYING" ∧
    (MainAgent.handle_message env st message).2.state ≠ AgentState.idle ∧
    (MainAgent.handle_message env st message).2.ctx.probe_count =
      st.ctx.probe_count := by
  obtain ⟨s, ctx⟩ := st
  simp only at hstate
  subst hstate
  have hmain : MainAgent.handle_message env ⟨AgentState.probing, ctx⟩ message =
      (.str "Error: NOTIFYING",
        { state := AgentState.error, ctx := { ctx with probe_results := some d } }) := by
    unfold MainAgent.handle_message handle_message_body
    simp [hreply, AgentState.lookup]
  refine ⟨hmain, rfl, ?_, ?_⟩
  · rw [hmain]
    simp
  · rw [hmain]

/-- Witness for C1 at a concrete input: a probing session whose reply is the
summary dict ends in ERROR with the error string, not in the notification
flow. -/
theorem C1_probing_summary_crashes_witness :
    MainAgent.handle_message
      { newQuery := fun st _ => (.ret (.str ""), st),
        probeReply := fun _ => .summary (.dict [("status", .str "complete")]),
        probeFreshReply := fun _ => .question "q",
        notifyRaises := Option.none }
      { state := AgentState.probing,
        ctx := { current_query := some "What was our Q2 CAC?",
                 current_answer := some "answer",
                 probe_count := 0,
                 feedback_type := some "unsatisfied",
                 probe_results := Option.none } } "final probe answer" =
      (.str "Error: NOTIFYING",
        { state := AgentState.error,
          ctx := { current_query := some "What was our Q2 CAC?",
                   current_answer := some "answer",
                   probe_count := 0,
                   feedback_type := some "unsatisfied",
                   probe_results := some (.dict [("status", .str "complete")]) } }) :=
  (C1_probing_summary_crashes
    { newQuery := fun st _ => (.ret (.str ""), st),
      probeReply := fun _ => .summary (.dict [("status", .str "complete")]),
      probeFreshReply := fun _ => .question "q",
      notifyRaises := Option.none }
    { state := AgentState.probing,
      ctx := { current_query := some "What was our Q2 CAC?",
               current_answer := some "answer",
               probe_count := 0,
               feedback_type := some "unsatisfied",
               probe_results := Option.none } } "final probe answer"
    (.dict [("status", .str "complete")]) rfl rfl).1

/-- C5 as stated is false: the raw string `"YES"` belongs to neither fixed
vocabulary, yet — because `_handle_feedback` lowercases and strips before the
exact match — it is accepted as satisfied feedback: the agent leaves
WAITING_FEEDBACK, resets to IDLE and clears the stored answer, instead of
re-prompting with state unchanged. -/
theorem C5_counterexample :
    ("YES" ∉ FEEDBACK_SATISFIED ∧ "YES" ∉ FEEDBACK_UNSATISFIED) ∧
    (MainAgent.handle_message
      { newQuery := fun st _ => (.ret (.str ""), st),
        probeReply := fun _ => .question "q",
        probeFreshReply := fun _ => .question "q",
        notifyRaises := Option.none }
      { state := AgentState.waiting_feedback,
        ctx := { current_query := some "q1", current_answer := some "a1",
                 probe_count := 0, feedback_type := Option.none,
                 probe_results := Option.none } } "YES").2.state ≠
      AgentState.waiting_feedback ∧
    (MainAgent.handle_message
      { newQuery := fun st _ => (.ret (.str ""), st),
        probeReply := fun _ => .question "q",
        probeFreshReply := fun _ => .question "q",
        notifyRaises := Option.none }
      { state := AgentState.waiting_feedback,
        ctx := { current_query := some "q1", current_answer := some "a1",
                 probe_count := 0, feedback_type := Option.none,
                 probe_results := Option.none } } "YES").2.ctx.current_answer =
      Option.none := by
  refine ⟨by decide, by decide, rfl⟩

/-- C5 amended: when the agent is WAITING_FEEDBACK and the feedback's
lowercased, stripped form matches neither fixed vocabulary, `handle_message`
returns the re-prompt and the agent — state, `current_query`,
`current_answer`, probe counter and all other context — is left exactly
unchanged. -/
theorem C5_unrecognized_feedback_frame (env : MainEnv) (st : MainState)
    (feedback : String) (hstate : st.state = AgentState.waiting_feedback)
    (hsat : pyStrip (pyLower feedback) ∉ FEEDBACK_SATISFIED)
    (hunsat : pyStrip (pyLower feedback) ∉ FEEDBACK_UNSATISFIED) :
    MainAgent.handle_message env st feedback =
      (.str ("Please indicate if you're satisfied with the answer. " ++
        "You can say things like 'yes', 'no', 'good', or 'not helpful'."), st) := by
  obtain ⟨s, ctx⟩ := st
  simp only at hstate
  subst hstate
  unfold MainAgent.handle_message handle_message_body handle_feedback
  simp [hsat, hunsat]

/-- Witness for C5 at a concrete input: the feedback `" Maybe? "` (neither
vocabulary, even after normalisation) re-prompts and changes nothing. -/
theorem C5_unrecognized_feedback_frame_witness :
    MainAgent.handle_message
      { newQuery := fun st _ => (.ret (.str ""), st),
        probeReply := fun _ => .question "q",
        probeFreshReply := fun _ => .question "q",
        notifyRaises := Option.none }
      { state := AgentState.waiting_feedback,
        ctx := { current_query := some "q1", current_answer := some "a1",
                 probe_count := 2, feedback_type := Option.none,
                 probe_results := Option.none } } " Maybe? " =
      (.str ("Please indicate if you're satisfied with the answer. " ++
        "You can say things like 'yes', 'no', 'good', or 'not helpful'."),
       { state := AgentState.waiting_feedback,
         ctx := { current_query := some "q1", current_answer := some "a1",
                  probe_count := 2, feedback_type := Option.none,
                  probe_results := Option.none } }) :=
  C5_unrecognized_feedback_frame
    { newQuery := fun st _ => (.ret (.str ""), st),
      probeReply := fun _ => .question "q",
      probeFreshReply := fun _ => .question "q",
      notifyRaises := Option.none }
    { state := AgentState.waiting_feedback,
      ctx := { current_query := some "q1", current_answer := some "a1",
               probe_count := 2, feedback_type := Option.none,
               probe_results := Option.none } } " Maybe? " rfl (by decide) (by decide)

/-- C9: in any state other than IDLE, WAITING_FEEDBACK, PROBING or ERROR —
that is, in PROCESSING, RETRIEVING, TOOL_EXECUTION or DONE — `handle_message`
transitions to ERROR and returns the fixed system-error string; the result is
the same for every environment of sub-agents and language model, i.e. none of
them is consulted. -/
theorem C9_unexpected_state_error (env env' : MainEnv) (st : MainState)
    (message : String)
    (hstate : st.state = AgentState.processing ∨ st.state = AgentState.retrieving ∨
      st.state = AgentState.tool_execution ∨ st.state = AgentState.done) :
    MainAgent.handle_message env st message =
      (.str "System error. Please try again.",
        { st with state := AgentState.error }) ∧
    MainAgent.handle_message env st message =
      MainAgent.handle_message env' st message := by
  obtain ⟨s, ctx⟩ := st
  simp only at hstate
  rcases hstate with h | h | h | h <;> subst h <;>
    exact ⟨rfl, rfl⟩

/-- Witness for C9 at a concrete input: in state DONE the agent answers the
system-error string and moves to ERROR, for two different environments. -/
theorem C9_unexpected_state_error_witness :
    MainAgent.handle_message
      { newQuery := fun st _ => (.ret (.str "a"), st),
        probeReply := fun _ => .question "q",
        probeFreshReply := fun _ => .question "q",
        notifyRaises := Option.none }
      { state := AgentState.done,
        ctx := { current_query := Option.none, current_answer := Option.none,
                 probe_count := 0, feedback_type := Option.none,
                 probe_results := Option.none } } "hello" =
      (.str "System error. Please try again.",
        { state := AgentState.error,
          ctx := { current_query := Option.none, current_answer := Option.none,
                   probe_count := 0, feedback_type := Option.none,
                   probe_results := Option.none } }) :=
  (C9_unexpected_state_error
    { newQuery := fun st _ => (.ret (.str "a"), st),
      probeReply := fun _ => .question "q",
      probeFreshReply := fun _ => .question "q",
      notifyRaises := Option.none }
    { newQuery := fun st _ => (.ret (.str "b"), st),
      probeReply := fun _ => .question "q2",
      probeFreshReply := fun _ => .question "q2",
      notifyRaises := some "down" }
    { state := AgentState.done,
      ctx := { current_query := Option.none, current_answer := Option.none,
               probe_count := 0, feedback_type := Option.none,
               probe_results := Option.none } } "hello"
    (Or.inr (Or.inr (Or.inr rfl)))).1

end Querylytics
